import Mathlib

/-!
Verification of the conclave-room-net datagram codec and dispatch layer
(src/src/lib.rs). The crate under verification implements two traits for
the external `Room` type: `SendDatagram::send` (outgoing room-summary
encoder) and `ReceiveDatagram::receive` (incoming command dispatcher).

The `Room`/`Connection` data model, the `on_ping` mutator, and the
serialization functions (`RoomInfoCommand::to_octets`,
`ServerReceiveCommand::from_cursor`) live in external crates
(`conclave_room`, `conclave_room_serialize`, `flood_rs`); those are
modelled here from the specification, anchored on the concrete byte
fixtures of the in-repository tests. Bytes are modelled as `Nat` values
(< 256 where it matters), timestamps (`Instant`) as opaque `Nat`, and a
mutable `&mut Room` call as a function returning the new `Room` together
with a status.
-/

namespace Conclave

/-- Modelled from the spec: per-peer `Connection` state from the external
`conclave_room` crate (spec section 3): a 64-bit `knowledge` fingerprint,
a flag for having a path to the leader, and a liveness timestamp recorded
on ping (the spec says `on_ping` records `now` for liveness bookkeeping). -/
structure Connection where
  knowledge : Nat
  has_connection_to_leader : Bool
  last_ping_at : Nat
deriving DecidableEq

/-- Modelled from the spec: the external `Room` (spec section 3): a `term`
(u16 election epoch), a `leader_index` (connection identifier or the
sentinel 0 for no leader), and a mapping from connection identifier to
`Connection` with unique keys, modelled as an association list. -/
structure Room where
  term : Nat
  leader_index : Nat
  connections : List (Nat × Connection)
deriving DecidableEq

/-- Modelled from the spec: `Room::new()` from the external crate builds a
room with default term 0, no leader (sentinel 0) and no connections. -/
def Room.new : Room :=
  { term := 0, leader_index := 0, connections := [] }

/-- The overwrite a Ping applies to the addressed connection (spec
section 4.2 step 5): knowledge and leader flag are replaced by the
payload values and the liveness timestamp is set to `now`. -/
def pingOverwrite (hctl : Bool) (knowledge now : Nat) (c : Connection) :
    Connection :=
  { c with
    knowledge := knowledge,
    has_connection_to_leader := hctl,
    last_ping_at := now }

/-- Modelled from the spec: `Room::on_ping(connection_id, term,
has_connection_to_leader, knowledge, now)` from the external
`conclave_room` crate. Spec section 4.2 step 5: set
`connection.knowledge = payload.knowledge`, set
`connection.has_connection_to_leader = payload.has_connection_to_leader`,
and record `now` on the connection for liveness. Term reconciliation is
explicitly delegated and unspecified, so the room term is left as is; the
addressed connection entry is overwritten in place. -/
def Room.on_ping (room : Room) (connection_id _term : Nat) (hctl : Bool)
    (knowledge now : Nat) : Room :=
  { room with
    connections := room.connections.map fun p =>
      if p.1 = connection_id then (p.1, pingOverwrite hctl knowledge now p.2)
      else p }

/-- The decoded `Ping` command payload (spec section 3):
`Ping { term: u16, has_connection_to_leader: bool, knowledge: u64 }`. -/
structure PingCommand where
  term : Nat
  has_connection_to_leader : Bool
  knowledge : Nat
deriving DecidableEq

/-- The failure classification of the incoming decoder (spec section 7):
an unregistered command tag byte, or a buffer too short for the fixed
layout of the tagged command. -/
inductive DecodeError where
  | unknownCommandType (tag : Nat)
  | malformedPayload
deriving DecidableEq

/-- The registered command type tag for `Ping` (external constant
`PING_COMMAND_TYPE_ID`, value 0xFF per the test fixture). -/
def PING_COMMAND_TYPE_ID : Nat := 0xFF

/-- Modelled from the spec: `ServerReceiveCommand::from_cursor` from the
external `conclave_room_serialize` crate. Fixed wire layout (spec section
6): offset 0 is the command tag (0xFF = Ping), offsets 1..2 the u16 term,
offsets 3..10 the u64 knowledge, offset 11 the boolean flag (0 = false,
nonzero = true). An unregistered tag fails with `unknownCommandType`;
truncated input fails with `malformedPayload`. Multi-byte integers are
read in network byte order (big-endian): the spec text says
little-endian, but the repository test (src/src/lib.rs lines 94-121)
asserts that the knowledge bytes F5 E6 0E 32 E9 E4 7F 08 decode to
17718865395771014920, which is their big-endian value (the little-endian
value is 612459764564027125), so the test fixes big-endian reads. Bytes
past offset 11 are left unread, as with a cursor. -/
def ServerReceiveCommand.from_cursor (buffer : List Nat) :
    Except DecodeError PingCommand :=
  match buffer with
  | [] => Except.error DecodeError.malformedPayload
  | tag :: rest =>
    if tag = PING_COMMAND_TYPE_ID then
      match rest with
      | t1 :: t0 :: k7 :: k6 :: k5 :: k4 :: k3 :: k2 :: k1 :: k0 :: f :: _ =>
        Except.ok
          { term := t1 * 256 + t0,
            has_connection_to_leader := f != 0,
            knowledge :=
              ((((((k7 * 256 + k6) * 256 + k5) * 256 + k4) * 256 + k3)
                  * 256 + k2) * 256 + k1) * 256 + k0 }
      | _ => Except.error DecodeError.malformedPayload
    else
      Except.error (DecodeError.unknownCommandType tag)

/-- The observable outcome of one `receive` call: `ok` for `Ok(())`,
`err msg` for an `Err(msg)` value returned to the caller, and `fault e`
for an abort of the call by a panic (the `.unwrap()` on the decode result
at src/src/lib.rs line 60 panics when the decoder fails; a panic is not a
value returned to the caller). -/
inductive ReceiveStatus where
  | ok
  | err (msg : String)
  | fault (e : DecodeError)
deriving DecidableEq

/-- `ReceiveDatagram::receive` for `Room` (src/src/lib.rs lines 51-73).
First the connection id is checked against the connection table; an
unknown id returns `Err(format!("there is no connection {}", id))`. Then
the datagram is decoded with `ServerReceiveCommand::from_cursor(..).unwrap()`:
a decode failure panics (modelled as `fault`), leaving the room in its
prior state. A decoded Ping is forwarded to `on_ping` together with `now`
and the call returns `Ok(())`. The returned `Room` is the post-state of
the `&mut self` argument. -/
def Room.receive (room : Room) (connection_id now : Nat)
    (buffer : List Nat) : Room × ReceiveStatus :=
  if ¬ (room.connections.lookup connection_id).isSome then
    (room, ReceiveStatus.err ("there is no connection " ++ toString connection_id))
  else
    match ServerReceiveCommand.from_cursor buffer with
    | Except.error e => (room, ReceiveStatus.fault e)
    | Except.ok ping =>
      (room.on_ping connection_id ping.term ping.has_connection_to_leader
         ping.knowledge now,
       ReceiveStatus.ok)

/-- The outgoing `RoomInfoCommand` value object (spec section 3): term,
leader index, and a client-info sequence that this crate always leaves
empty (its element shape is external and never populated here). -/
structure RoomInfoCommand where
  term : Nat
  leader_index : Nat
  client_infos : List Unit

/-- Modelled from the spec: `RoomInfoCommand::to_octets` from the external
`conclave_room_serialize` crate, restricted to what the spec pins down
(section 6): the term as 2 bytes (network byte order, matching the
decoder), a one-byte leader-index sentinel encoding, and the trailing
marker byte 0xFF; the fixture is `[0x00, 0x00, 0x00, 0xFF]` for a fresh
room. The general non-empty client-info layout is explicitly unspecified
(spec section 9) and `client_infos` is always empty in this crate, so the
empty-sequence encoding contributes no bytes here. -/
def RoomInfoCommand.to_octets (c : RoomInfoCommand) : List Nat :=
  [c.term / 256 % 256, c.term % 256, c.leader_index % 256, 0xFF]

/-- `SendDatagram::send` for `Room` (src/src/lib.rs lines 23-39): build a
`RoomInfoCommand` from the room term and leader index with empty
`client_infos`, and serialize it. -/
def Room.send (room : Room) : List Nat :=
  RoomInfoCommand.to_octets
    { term := room.term, leader_index := room.leader_index, client_infos := [] }

/-- The 12-byte Ping fixture datagram of the repository test
(src/src/lib.rs lines 97-110). -/
def fixturePing : List Nat :=
  [0xFF, 0x00, 0x20, 0xF5, 0xE6, 0x0E, 0x32, 0xE9, 0xE4, 0x7F, 0x08, 0x01]

/-- The expected knowledge value of the repository test
(src/src/lib.rs line 96). -/
def fixtureKnowledge : Nat := 17718865395771014920

/-- The decoded form of `fixturePing`: tag 0xFF, term bytes 00 20 read in
network byte order as 0x0020 = 32, knowledge bytes read in network byte
order as 17718865395771014920, flag byte 0x01 as true. -/
def fixtureCommand : PingCommand :=
  { term := 32, has_connection_to_leader := true, knowledge := fixtureKnowledge }

/-- A concrete fresh connection, as produced when a peer attaches. -/
def sampleConnection : Connection :=
  { knowledge := 0, has_connection_to_leader := false, last_ping_at := 0 }

/-- A second concrete connection with distinct state, to observe that
other connections stay untouched. -/
def otherConnection : Connection :=
  { knowledge := 9, has_connection_to_leader := true, last_ping_at := 4 }

/-- A concrete room holding connections 1 and 2, used to evaluate the
dispatch path on concrete inputs. -/
def sampleRoom : Room :=
  { term := 0, leader_index := 0,
    connections := [(1, sampleConnection), (2, otherConnection)] }

/-- A concrete room with term 3 and leader 2 and no connections. -/
def sendRoomA : Room := { term := 3, leader_index := 2, connections := [] }

/-- A concrete room agreeing with `sendRoomA` on term and leader index
but holding a different connection table. -/
def sendRoomB : Room :=
  { term := 3, leader_index := 2, connections := [(1, sampleConnection)] }

/-! ## Helper lemmas about lookups in an overwritten connection table -/

theorem lookup_map_overwrite_self (l : List (Nat × Connection)) (cid : Nat)
    (g : Connection → Connection) :
    (l.map fun p => if p.1 = cid then (p.1, g p.2) else p).lookup cid
      = (l.lookup cid).map g := by
  induction l with
  | nil => rfl
  | cons p t ih =>
    obtain ⟨k, v⟩ := p
    by_cases h : k = cid
    · have hhead :
          (if (k, v).1 = cid then ((k, v).1, g (k, v).2) else (k, v)) = (k, g v) := by
        simp [h]
      rw [List.map_cons, hhead]
      subst h
      simp [List.lookup, ih]
    · have hhead :
          (if (k, v).1 = cid then ((k, v).1, g (k, v).2) else (k, v)) = (k, v) := by
        simp [h]
      have hb : (cid == k) = false := by simp [Ne.symm h]
      rw [List.map_cons, hhead]
      simp [List.lookup, hb, ih]

theorem lookup_map_overwrite_ne (l : List (Nat × Connection)) (cid k0 : Nat)
    (g : Connection → Connection) (hk : k0 ≠ cid) :
    (l.map fun p => if p.1 = cid then (p.1, g p.2) else p).lookup k0
      = l.lookup k0 := by
  induction l with
  | nil => rfl
  | cons p t ih =>
    obtain ⟨k, v⟩ := p
    by_cases h : k = cid
    · have hhead :
          (if (k, v).1 = cid then ((k, v).1, g (k, v).2) else (k, v)) = (k, g v) := by
        simp [h]
      rw [List.map_cons, hhead]
      subst h
      have hb : (k0 == k) = false := by simp [hk]
      simp [List.lookup, hb, ih]
    · have hhead :
          (if (k, v).1 = cid then ((k, v).1, g (k, v).2) else (k, v)) = (k, v) := by
        simp [h]
      rw [List.map_cons, hhead]
      cases hkk : k0 == k <;> simp [List.lookup, hkk, ih]

theorem map_fst_overwrite (l : List (Nat × Connection)) (cid : Nat)
    (g : Connection → Connection) :
    (l.map fun p => if p.1 = cid then (p.1, g p.2) else p).map Prod.fst
      = l.map Prod.fst := by
  induction l with
  | nil => rfl
  | cons p t ih =>
    by_cases h : p.1 = cid <;> simp [h, ih]

theorem receive_ok_eq (room : Room) (cid now : Nat) (buffer : List Nat)
    (ping : PingCommand)
    (h : (room.connections.lookup cid).isSome)
    (hd : ServerReceiveCommand.from_cursor buffer = Except.ok ping) :
    room.receive cid now buffer
      = (room.on_ping cid ping.term ping.has_connection_to_leader
           ping.knowledge now,
         ReceiveStatus.ok) := by
  simp [Room.receive, h, hd]

/-! ## Claim theorems -/

/-- Claim C2: for every room, timestamp and byte buffer, a `receive` call
addressed to a connection id that is not present in the connection table
returns the unknown-connection error naming that id, regardless of the
buffer contents or validity, and the room is left unchanged. -/
theorem C2_unknown_connection_err (room : Room) (connection_id now : Nat)
    (buffer : List Nat)
    (h : room.connections.lookup connection_id = none) :
    room.receive connection_id now buffer
      = (room, ReceiveStatus.err
          ("there is no connection " ++ toString connection_id)) := by
  simp [Room.receive, h]

/-- Witness for C2 at a concrete input: a fresh room knows no connection
7, so receiving any garbage buffer addressed to 7 errs and changes
nothing. -/
theorem C2_unknown_connection_err_witness :
    Room.new.receive 7 0 [1, 2, 3]
      = (Room.new, ReceiveStatus.err ("there is no connection " ++ toString 7)) :=
  C2_unknown_connection_err Room.new 7 0 [1, 2, 3] rfl

/-- Claim C3 (code bug), evaluated at the failing input: for the sample
room containing connection 1 and the 1-byte buffer [0xFF] (shorter than
the 12-byte Ping layout), the decoder fails with `malformedPayload`, but
`receive` surfaces this as a panic of the `.unwrap()` call on
src/src/lib.rs line 60 (modelled `fault`), not as the returned
`MalformedPayload` error the claim states; the room is left unchanged. -/
theorem C3_short_buffer_faults :
    sampleRoom.receive 1 0 [0xFF]
      = (sampleRoom, ReceiveStatus.fault DecodeError.malformedPayload) := rfl

/-- Claim C4 (code bug), evaluated at the failing input: for the sample
room containing connection 1 and a 12-byte buffer whose tag byte is 0x01
(not the registered Ping tag 0xFF), the decoder fails with
`unknownCommandType 0x01`, but `receive` surfaces this as a panic of the
`.unwrap()` call on src/src/lib.rs line 60 (modelled `fault`), not as the
returned `UnknownCommandType` error the claim states; the room is left
unchanged. -/
theorem C4_unknown_tag_faults :
    sampleRoom.receive 1 0
        [0x01, 0x00, 0x20, 0xF5, 0xE6, 0x0E, 0x32, 0xE9, 0xE4, 0x7F, 0x08, 0x01]
      = (sampleRoom,
         ReceiveStatus.fault (DecodeError.unknownCommandType 0x01)) := rfl

/-- Claim C5 (code bug), evaluated at the failing input: for the sample
room containing connection 1 and the empty buffer, `receive` does not
return an Ok or Err value: the `.unwrap()` on src/src/lib.rs line 60
panics on the decode failure (modelled `fault`), an uncatchable abort the
claim says never happens. -/
theorem C5_receive_can_fault :
    sampleRoom.receive 1 0 []
      = (sampleRoom, ReceiveStatus.fault DecodeError.malformedPayload) := rfl

/-- Claim C6: for a room with the default term 0 and no leader (the
sentinel 0), such as a newly constructed room, `send` returns exactly the
four bytes [0x00, 0x00, 0x00, 0xFF]. -/
theorem C6_send_new_room (room : Room) (h1 : room.term = 0)
    (h2 : room.leader_index = 0) :
    room.send = [0x00, 0x00, 0x00, 0xFF] := by
  simp [Room.send, RoomInfoCommand.to_octets, h1, h2]

/-- Witness for C6 at the concrete input `Room.new`. -/
theorem C6_send_new_room_witness : Room.new.send = [0x00, 0x00, 0x00, 0xFF] :=
  C6_send_new_room Room.new rfl rfl

/-- Claim C7: `send` is a pure function of the room term and leader
index: it serializes the `RoomInfoCommand` built from exactly those two
fields with an always-empty `client_infos`, and any two rooms agreeing on
term and leader index (whatever their connection tables) send equal byte
sequences; being a function of the room, it leaves the room unchanged. -/
theorem C7_send_pure (r1 r2 : Room) (h1 : r1.term = r2.term)
    (h2 : r1.leader_index = r2.leader_index) :
    r1.send = RoomInfoCommand.to_octets
        { term := r1.term, leader_index := r1.leader_index, client_infos := [] }
      ∧ r1.send = r2.send := by
  refine ⟨rfl, ?_⟩
  simp [Room.send, h1, h2]

/-- Witness for C7 at concrete inputs: two rooms with term 3 and leader
index 2 but different connection tables produce the same bytes. -/
theorem C7_send_pure_witness :
    sendRoomA.send = RoomInfoCommand.to_octets
        { term := sendRoomA.term, leader_index := sendRoomA.leader_index,
          client_infos := [] }
      ∧ sendRoomA.send = sendRoomB.send :=
  C7_send_pure sendRoomA sendRoomB rfl rfl

/-- Claim C1 counterexample: the fixture datagram FF 00 20 F5 E6 0E 32 E9
E4 7F 08 01 decodes to term 32 = 0x0020 (the term bytes 00 20 are read in
network byte order, like the knowledge bytes must be to produce
17718865395771014920), so the term forwarded to `on_ping` is 32, not the
0x2000 the claim states. -/
theorem C1_fixture_term_cex :
    ServerReceiveCommand.from_cursor fixturePing = Except.ok fixtureCommand
    ∧ fixtureCommand.term = 32
    ∧ (32 : Nat) ≠ 0x2000 :=
  ⟨rfl, rfl, by decide⟩

/-- Claim C1 (amended: the decoded term forwarded to `on_ping` is 0x0020,
not 0x2000): for every room containing the addressed connection,
`receive` on the fixture datagram returns Ok, forwards the decoded term
32, the flag true, the knowledge 17718865395771014920 and the supplied
`now` to `on_ping`, which sets that connection knowledge to
17718865395771014920 and its `has_connection_to_leader` to true, while
every other connection is unchanged. -/
theorem C1_fixture_receive (room : Room) (cid now : Nat)
    (h : (room.connections.lookup cid).isSome) :
    (room.receive cid now fixturePing).2 = ReceiveStatus.ok
    ∧ (room.receive cid now fixturePing).1
        = room.on_ping cid 32 true fixtureKnowledge now
    ∧ (∃ c0 c1, room.connections.lookup cid = some c0
        ∧ (room.receive cid now fixturePing).1.connections.lookup cid = some c1
        ∧ c1.knowledge = fixtureKnowledge
        ∧ c1.has_connection_to_leader = true)
    ∧ (∀ k, k ≠ cid →
        (room.receive cid now fixturePing).1.connections.lookup k
          = room.connections.lookup k) := by
  obtain ⟨c0, hc0⟩ := Option.isSome_iff_exists.mp h
  have hd : ServerReceiveCommand.from_cursor fixturePing
      = Except.ok fixtureCommand := rfl
  have hrec : room.receive cid now fixturePing
      = (room.on_ping cid 32 true fixtureKnowledge now, ReceiveStatus.ok) := by
    simp [Room.receive, h, hd, fixtureCommand]
  refine ⟨by rw [hrec], by rw [hrec], ?_, ?_⟩
  · refine ⟨c0, pingOverwrite true fixtureKnowledge now c0, hc0, ?_, rfl, rfl⟩
    rw [hrec]
    simp [Room.on_ping, lookup_map_overwrite_self, hc0]
  · intro k hk
    rw [hrec]
    simp only [Room.on_ping]
    exact lookup_map_overwrite_ne room.connections cid k _ hk

/-- Witness for C1 at a concrete input: the sample room holds connection
1, and receiving the fixture addressed to 1 at time 5 succeeds and
applies the decoded ping, term 32, via `on_ping`. -/
theorem C1_fixture_receive_witness :
    (sampleRoom.receive 1 5 fixturePing).2 = ReceiveStatus.ok
    ∧ (sampleRoom.receive 1 5 fixturePing).1
        = sampleRoom.on_ping 1 32 true fixtureKnowledge 5 :=
  ⟨(C1_fixture_receive sampleRoom 1 5 (by decide)).1,
   (C1_fixture_receive sampleRoom 1 5 (by decide)).2.1⟩

/-- Claim C8: for every room containing the addressed connection and
every buffer decoding to a valid Ping, dispatching the same Ping twice in
succession leaves the same final knowledge and `has_connection_to_leader`
on that connection as dispatching it once: `on_ping` is a plain
overwrite, not an accumulator. -/
theorem C8_double_dispatch (room : Room) (cid now : Nat) (buffer : List Nat)
    (ping : PingCommand)
    (h : (room.connections.lookup cid).isSome)
    (hd : ServerReceiveCommand.from_cursor buffer = Except.ok ping) :
    ∃ c1 c2,
      (room.receive cid now buffer).1.connections.lookup cid = some c1
      ∧ ((room.receive cid now buffer).1.receive cid now buffer).1.connections.lookup cid
          = some c2
      ∧ c2.knowledge = c1.knowledge
      ∧ c2.has_connection_to_leader = c1.has_connection_to_leader := by
  obtain ⟨c0, hc0⟩ := Option.isSome_iff_exists.mp h
  have hrec1 : room.receive cid now buffer
      = (room.on_ping cid ping.term ping.has_connection_to_leader
           ping.knowledge now,
         ReceiveStatus.ok) := receive_ok_eq room cid now buffer ping h hd
  have hl1 : (room.receive cid now buffer).1.connections.lookup cid
      = some (pingOverwrite ping.has_connection_to_leader ping.knowledge now c0) := by
    rw [hrec1]
    simp [Room.on_ping, lookup_map_overwrite_self, hc0]
  have h1 : ((room.receive cid now buffer).1.connections.lookup cid).isSome := by
    rw [hl1]; rfl
  have hrec2 : (room.receive cid now buffer).1.receive cid now buffer
      = ((room.receive cid now buffer).1.on_ping cid ping.term
           ping.has_connection_to_leader ping.knowledge now,
         ReceiveStatus.ok) :=
    receive_ok_eq (room.receive cid now buffer).1 cid now buffer ping h1 hd
  refine ⟨pingOverwrite ping.has_connection_to_leader ping.knowledge now c0,
          pingOverwrite ping.has_connection_to_leader ping.knowledge now
            (pingOverwrite ping.has_connection_to_leader ping.knowledge now c0),
          hl1, ?_, rfl, rfl⟩
  rw [hrec2]
  simp [Room.on_ping, lookup_map_overwrite_self, hl1]

/-- Witness for C8 at a concrete input: the sample room, connection 1 and
the fixture datagram. -/
theorem C8_double_dispatch_witness :
    ∃ c1 c2,
      (sampleRoom.receive 1 0 fixturePing).1.connections.lookup 1 = some c1
      ∧ ((sampleRoom.receive 1 0 fixturePing).1.receive 1 0 fixturePing).1.connections.lookup 1
          = some c2
      ∧ c2.knowledge = c1.knowledge
      ∧ c2.has_connection_to_leader = c1.has_connection_to_leader :=
  C8_double_dispatch sampleRoom 1 0 fixturePing fixtureCommand (by decide) rfl

/-- Claim C9 (implicit): for every room, connection id, timestamp and
byte buffer, `receive` preserves the key sequence of the connection
table: a dispatch never creates a connection and never removes one,
whether it returns ok, errs, or faults. -/
theorem C9_receive_preserves_keys (room : Room) (cid now : Nat)
    (buffer : List Nat) :
    (room.receive cid now buffer).1.connections.map Prod.fst
      = room.connections.map Prod.fst := by
  by_cases h : (room.connections.lookup cid).isSome
  · cases hfc : ServerReceiveCommand.from_cursor buffer with
    | error e => simp [Room.receive, h, hfc]
    | ok ping =>
      simp only [receive_ok_eq room cid now buffer ping h hfc, Room.on_ping]
      exact map_fst_overwrite room.connections cid _
  · simp [Room.receive, h]

/-- Claim C10 (implicit): the outcome classification of `receive` is
independent of the `now` timestamp: for every room, connection id and
byte buffer, two calls differing only in `now` produce the same status
(same ok, same err message, same fault); `now` is only forwarded to
`on_ping`. -/
theorem C10_status_independent_of_now (room : Room) (cid now1 now2 : Nat)
    (buffer : List Nat) :
    (room.receive cid now1 buffer).2 = (room.receive cid now2 buffer).2 := by
  by_cases h : (room.connections.lookup cid).isSome
  · cases hfc : ServerReceiveCommand.from_cursor buffer <;>
      simp [Room.receive, h, hfc]
  · simp [Room.receive, h]

end Conclave
